import Mathlib

/-!
Shallow embedding of `src/pylon/core/tools/traefik.py`: the Traefik route
registrar (`register_traefik_route` / `unregister_traefik_route`) of
carrier-io-pylon, together with the pieces of context state they touch.

Modelling conventions:
* Python dicts read from settings become structures of `Option` fields; a
  missing or empty (falsy) section is `none`.
* The Redis KV store is an association list; `set` shadows earlier entries,
  `delete` filters them out.
* KV I/O failure is injected explicitly: `failAt` names the index of the
  first `store.set` call that raises (earlier calls persist, the raising
  one does not, no later call is made), and `deleteOk k = false` models a
  `store.delete` call whose store-side effect does not happen (the call
  returns, matching the spec's accepted "orphan key" outcome).
* Each result records the calls issued (`writes` / `deletes`) and whether a
  KV connection was opened, so "performs no KV I/O" is directly statable.
-/

/-- Modelled from the spec: the default server listening port
(`pylon.core.constants.SERVER_DEFAULT_PORT`; `constants.py` is not under
`src/`). The spec only calls it "the default port when unconfigured", so the
concrete value is irrelevant to every claim; it is fixed arbitrarily. -/
def SERVER_DEFAULT_PORT : Nat := 8080

/-- Redis KV store contents: an association list, most recent `set` first. -/
abbrev Store := List (String × String)

/-- Redis `SET key value`: overwrite the binding for `k`. -/
def storeSet (s : Store) (k v : String) : Store :=
  (k, v) :: s.filter (fun p => p.1 != k)

/-- Redis `DEL key`: remove the binding for `k` (a no-op when `k` is absent,
mirroring `DEL` of a missing key returning 0 without raising). -/
def storeDelete (s : Store) (k : String) : Store :=
  s.filter (fun p => p.1 != k)

/-- Whether key `k` is present in the store. -/
def storeHasKey (s : Store) (k : String) : Bool :=
  s.any (fun p => p.1 == k)

/-- The `redis` entry of the traefik settings section
(`traefik_config.get("redis", dict())`): connection host and credential. -/
structure RedisConfig where
  host : Option String
  password : Option String
deriving DecidableEq, Repr

/-- The `traefik` settings section. `redis = none` models a missing or empty
(falsy) `redis` entry; each `Option String` field models presence of that key
in the dict. -/
structure TraefikConfig where
  redis : Option RedisConfig
  node_url : Option String
  node_hostname : Option String
  rootkey : Option String
  rule : Option String
  entrypoint : Option String
deriving DecidableEq, Repr

/-- The parts of `context.settings` the registrar reads. `traefik = none`
models a missing or empty (falsy) `traefik` section; `server_port` models
`settings.get("server", dict()).get("port", ...)` being present. -/
structure Settings where
  traefik : Option TraefikConfig
  server_port : Option Nat
deriving DecidableEq, Repr

/-- The fields of the pylon `context` object that the registrar touches:
the debug flag, the settings, the node name (resolved in `main.py`), and the
Registered Key Set `context.traefik_redis_keys`. -/
structure Context where
  debug : Bool
  settings : Settings
  node_name : String
  traefik_redis_keys : List String
deriving DecidableEq, Repr

/-- URL resolution of `register_traefik_route` (traefik.py lines 54-59):
explicit `node_url` > `node_hostname` + local port > local hostname + local
port. -/
def resolve_node_url (traefik_config : TraefikConfig) (local_hostname : String)
    (local_port : Nat) : String :=
  match traefik_config.node_url with
  | some u => u
  | none =>
    match traefik_config.node_hostname with
    | some h => "http://" ++ h ++ ":" ++ toString local_port
    | none => "http://" ++ local_hostname ++ ":" ++ toString local_port

/-- Key `{rootkey}/http/routers/{node_name}/rule` (traefik.py line 73/78). -/
def routerRuleKey (rootkey node_name : String) : String :=
  rootkey ++ "/http/routers/" ++ node_name ++ "/rule"

/-- Key `{rootkey}/http/routers/{node_name}/entrypoints/0` (line 74/79). -/
def routerEntrypointsKey (rootkey node_name : String) : String :=
  rootkey ++ "/http/routers/" ++ node_name ++ "/entrypoints/0"

/-- Key `{rootkey}/http/routers/{node_name}/service` (line 75/80). -/
def routerServiceKey (rootkey node_name : String) : String :=
  rootkey ++ "/http/routers/" ++ node_name ++ "/service"

/-- Key `{rootkey}/http/services/{node_name}/loadbalancer/servers/0/url`
(line 76/81). -/
def serviceUrlKey (rootkey node_name : String) : String :=
  rootkey ++ "/http/services/" ++ node_name ++ "/loadbalancer/servers/0/url"

/-- Outcome of a `register_traefik_route` call: which early return was taken,
or a store exception propagated, or the whole body ran. -/
inductive RegOutcome where
  | skippedDebug
  | skippedNoTraefik
  | skippedNoRedis
  | raised
  | completed
deriving DecidableEq, Repr

/-- State after `register_traefik_route`: the mutated context, the store, the
`store.set` calls issued in order (a raising call included), and whether a
`StrictRedis` connection was constructed. -/
structure RegResult where
  ctx : Context
  store : Store
  writes : List (String × String)
  opened : Bool
  outcome : RegOutcome
deriving DecidableEq, Repr

/-- Run the `store.set` calls of the main path in order. The call with index
`failAt` (0-based) raises: calls before it persist, the raising call does
not, and no later call is issued. Returns the final store, the calls issued
(the raising one included), and whether a raise occurred. -/
def runStoreSets (failAt : Option Nat) : Nat → List (String × String) → Store →
    Store × List (String × String) × Bool
  | _, [], s => (s, [], false)
  | i, (k, v) :: rest, s =>
    if failAt = some i then (s, [(k, v)], true)
    else
      let r := runStoreSets failAt (i + 1) rest (storeSet s k v)
      (r.1, (k, v) :: r.2.1, r.2.2)

/-- Embedding of `register_traefik_route(context)` (traefik.py lines 32-85).
`WERKZEUG_RUN_MAIN` is `os.environ.get("WERKZEUG_RUN_MAIN")`,
`local_hostname` is `socket.gethostname()`, `failAt` injects a store
exception (see `runStoreSets`), `store` is the Redis contents. -/
def register_traefik_route (WERKZEUG_RUN_MAIN : Option String)
    (local_hostname : String) (failAt : Option Nat) (store : Store)
    (context : Context) : RegResult :=
  let context := { context with traefik_redis_keys := [] }
  if context.debug && WERKZEUG_RUN_MAIN != some "true" then
    { ctx := context, store := store, writes := [], opened := false,
      outcome := .skippedDebug }
  else
    match context.settings.traefik with
    | none =>
      { ctx := context, store := store, writes := [], opened := false,
        outcome := .skippedNoTraefik }
    | some traefik_config =>
      match traefik_config.redis with
      | none =>
        { ctx := context, store := store, writes := [], opened := false,
          outcome := .skippedNoRedis }
      | some _redis_config =>
        let local_port := context.settings.server_port.getD SERVER_DEFAULT_PORT
        let node_name := context.node_name
        let node_url := resolve_node_url traefik_config local_hostname local_port
        let traefik_rootkey := traefik_config.rootkey.getD "traefik"
        let traefik_rule := traefik_config.rule.getD "PathPrefix(`/`)"
        let traefik_entrypoint := traefik_config.entrypoint.getD "http"
        let r := runStoreSets failAt 0
          [(routerRuleKey traefik_rootkey node_name, traefik_rule),
           (routerEntrypointsKey traefik_rootkey node_name, traefik_entrypoint),
           (routerServiceKey traefik_rootkey node_name, node_name),
           (serviceUrlKey traefik_rootkey node_name, node_url)] store
        if r.2.2 then
          { ctx := context, store := r.1, writes := r.2.1, opened := true,
            outcome := .raised }
        else
          { ctx := { context with traefik_redis_keys :=
              [routerRuleKey traefik_rootkey node_name,
               routerEntrypointsKey traefik_rootkey node_name,
               routerServiceKey traefik_rootkey node_name,
               serviceUrlKey traefik_rootkey node_name] },
            store := r.1, writes := r.2.1, opened := true,
            outcome := .completed }

/-- Outcome of an `unregister_traefik_route` call. -/
inductive UnregOutcome where
  | skippedDebug
  | skippedNoTraefik
  | skippedNoRedis
  | completed
deriving DecidableEq, Repr

/-- State after `unregister_traefik_route`: the mutated context, the store,
the keys passed to `store.delete` in call order, and whether a `StrictRedis`
connection was constructed. -/
structure UnregResult where
  ctx : Context
  store : Store
  deletes : List String
  opened : Bool
  outcome : UnregOutcome
deriving DecidableEq, Repr

/-- The `while context.traefik_redis_keys:` drain loop (traefik.py lines
110-112): pop the LAST key and call `store.delete` on it, until the list is
empty; hence the argument here is the reversal of the key list. `deleteOk k =
false` models a delete whose store-side removal does not happen (the spec's
accepted "orphan key" outcome); the call still returns and the loop goes on.
Returns the final store and the keys passed to `store.delete` in order. -/
def drainKeys (deleteOk : String → Bool) : List String → Store →
    Store × List String
  | [], store => (store, [])
  | key :: rest, store =>
    let store' := if deleteOk key then storeDelete store key else store
    let r := drainKeys deleteOk rest store'
    (r.1, key :: r.2)

/-- Embedding of `unregister_traefik_route(context)` (traefik.py lines
87-112). -/
def unregister_traefik_route (WERKZEUG_RUN_MAIN : Option String)
    (deleteOk : String → Bool) (store : Store) (context : Context) :
    UnregResult :=
  if context.debug && WERKZEUG_RUN_MAIN != some "true" then
    { ctx := context, store := store, deletes := [], opened := false,
      outcome := .skippedDebug }
  else
    match context.settings.traefik with
    | none =>
      { ctx := context, store := store, deletes := [], opened := false,
        outcome := .skippedNoTraefik }
    | some traefik_config =>
      match traefik_config.redis with
      | none =>
        { ctx := context, store := store, deletes := [], opened := false,
          outcome := .skippedNoRedis }
      | some _redis_config =>
        let r := drainKeys deleteOk context.traefik_redis_keys.reverse store
        { ctx := { context with traefik_redis_keys := [] }, store := r.1,
          deletes := r.2, opened := true, outcome := .completed }

/-- Concrete redis connection settings, used by witnesses. -/
def fixtureRedis : RedisConfig := { host := some "redis-host", password := none }

/-- Concrete traefik section (all optional keys absent), used by witnesses. -/
def fixtureCfg : TraefikConfig :=
  { redis := some fixtureRedis, node_url := none, node_hostname := none,
    rootkey := none, rule := none, entrypoint := none }

/-- Concrete context passing all guards, used by witnesses. -/
def fixtureCtx : Context :=
  { debug := false,
    settings := { traefik := some fixtureCfg, server_port := some 1080 },
    node_name := "pylon", traefik_redis_keys := [] }

/-- A key deleted from the store is no longer present. -/
theorem storeHasKey_delete_self (s : Store) (k : String) :
    storeHasKey (storeDelete s k) k = false := by
  simp only [storeHasKey, storeDelete, Bool.eq_false_iff, ne_eq, List.any_eq_true,
    List.mem_filter, not_exists, not_and]
  rintro ⟨a, b⟩ ⟨_, hne⟩ heq
  simp only [bne_iff_ne, ne_eq, beq_iff_eq] at hne heq
  exact hne heq

/-- Deleting any key keeps an absent key absent. -/
theorem storeHasKey_delete_of_false (s : Store) (k k' : String)
    (h : storeHasKey s k = false) :
    storeHasKey (storeDelete s k') k = false := by
  simp only [storeHasKey, Bool.eq_false_iff, ne_eq, List.any_eq_true, not_exists,
    not_and] at h
  simp only [storeHasKey, storeDelete, Bool.eq_false_iff, ne_eq, List.any_eq_true,
    List.mem_filter, not_exists, not_and]
  rintro ⟨a, b⟩ ⟨hmem, _⟩ heq
  exact h (a, b) hmem heq

/-- A sequence of deletions keeps an absent key absent. -/
theorem storeHasKey_foldl_delete_of_false (l : List String) :
    ∀ (s : Store) (k : String), storeHasKey s k = false →
      storeHasKey (l.foldl storeDelete s) k = false := by
  induction l with
  | nil => intro s k h; simpa using h
  | cons a rest ih =>
    intro s k h
    simpa [List.foldl] using
      ih (storeDelete s a) k (storeHasKey_delete_of_false s k a h)

/-- After deleting every key of `l`, no key of `l` is present. -/
theorem storeHasKey_foldl_delete_of_mem (l : List String) :
    ∀ (s : Store) (k : String), k ∈ l →
      storeHasKey (l.foldl storeDelete s) k = false := by
  induction l with
  | nil => intro s k h; cases h
  | cons a rest ih =>
    intro s k h
    rcases List.mem_cons.mp h with h | h
    · subst h
      exact storeHasKey_foldl_delete_of_false rest (storeDelete s k) k
        (storeHasKey_delete_self s k)
    · exact ih (storeDelete s a) k h

/-- A fault-free run of the four writes: all records land and all four calls
are issued in order. -/
theorem runStoreSets_none4 (k0 v0 k1 v1 k2 v2 k3 v3 : String) (s : Store) :
    runStoreSets none 0 [(k0, v0), (k1, v1), (k2, v2), (k3, v3)] s =
      (storeSet (storeSet (storeSet (storeSet s k0 v0) k1 v1) k2 v2) k3 v3,
       [(k0, v0), (k1, v1), (k2, v2), (k3, v3)], false) := rfl

/-- A run whose third `set` raises: the first two records land, three calls
are issued, and the raise is reported. -/
theorem runStoreSets_fail2 (k0 v0 k1 v1 k2 v2 k3 v3 : String) (s : Store) :
    runStoreSets (some 2) 0 [(k0, v0), (k1, v1), (k2, v2), (k3, v3)] s =
      (storeSet (storeSet s k0 v0) k1 v1,
       [(k0, v0), (k1, v1), (k2, v2)], true) := rfl

/-- When no write raised, the calls issued are exactly the requested ones. -/
theorem runStoreSets_calls_of_not_raised (f : Option Nat)
    (ws : List (String × String)) :
    ∀ (i : Nat) (s : Store), (runStoreSets f i ws s).2.2 = false →
      (runStoreSets f i ws s).2.1 = ws := by
  induction ws with
  | nil => intro i s _; rfl
  | cons p rest ih =>
    intro i s h
    obtain ⟨k, v⟩ := p
    by_cases hf : f = some i
    · simp [runStoreSets, hf] at h
    · simp only [runStoreSets, if_neg hf] at h ⊢
      exact congrArg _ (ih (i + 1) (storeSet s k v) h)

/-- The drain loop passes every key to `store.delete` exactly once, in list
order, whatever the per-key outcomes are. -/
theorem drainKeys_deletes (f : String → Bool) :
    ∀ (l : List String) (s : Store), (drainKeys f l s).2 = l := by
  intro l
  induction l with
  | nil => intro s; rfl
  | cons k rest ih => intro s; simp [drainKeys, ih]

/-- With every delete effective, the drain loop removes each key in turn. -/
theorem drainKeys_allOk_store (l : List String) :
    ∀ (s : Store), (drainKeys (fun _ => true) l s).1 = l.foldl storeDelete s := by
  induction l with
  | nil => intro s; rfl
  | cons k rest ih => intro s; simp [drainKeys, ih, List.foldl]

/-- Characterization of `register_traefik_route` when every guard passes and
no write raises: the four records are written, the four keys are recorded in
write order, and the outcome is `completed`. -/
theorem register_completed_eq (env : Option String) (host : String) (s : Store)
    (ctx : Context) (cfg : TraefikConfig) (rc : RedisConfig)
    (hdbg : (ctx.debug && env != some "true") = false)
    (hT : ctx.settings.traefik = some cfg) (hR : cfg.redis = some rc) :
    register_traefik_route env host none s ctx =
      { ctx := { ctx with traefik_redis_keys :=
          [routerRuleKey (cfg.rootkey.getD "traefik") ctx.node_name,
           routerEntrypointsKey (cfg.rootkey.getD "traefik") ctx.node_name,
           routerServiceKey (cfg.rootkey.getD "traefik") ctx.node_name,
           serviceUrlKey (cfg.rootkey.getD "traefik") ctx.node_name] },
        store := storeSet (storeSet (storeSet (storeSet s
          (routerRuleKey (cfg.rootkey.getD "traefik") ctx.node_name)
          (cfg.rule.getD "PathPrefix(`/`)"))
          (routerEntrypointsKey (cfg.rootkey.getD "traefik") ctx.node_name)
          (cfg.entrypoint.getD "http"))
          (routerServiceKey (cfg.rootkey.getD "traefik") ctx.node_name)
          ctx.node_name)
          (serviceUrlKey (cfg.rootkey.getD "traefik") ctx.node_name)
          (resolve_node_url cfg host (ctx.settings.server_port.getD SERVER_DEFAULT_PORT)),
        writes :=
          [(routerRuleKey (cfg.rootkey.getD "traefik") ctx.node_name,
            cfg.rule.getD "PathPrefix(`/`)"),
           (routerEntrypointsKey (cfg.rootkey.getD "traefik") ctx.node_name,
            cfg.entrypoint.getD "http"),
           (routerServiceKey (cfg.rootkey.getD "traefik") ctx.node_name,
            ctx.node_name),
           (serviceUrlKey (cfg.rootkey.getD "traefik") ctx.node_name,
            resolve_node_url cfg host (ctx.settings.server_port.getD SERVER_DEFAULT_PORT))],
        opened := true, outcome := .completed } := by
  obtain ⟨d, ⟨tr, sp⟩, n, ks⟩ := ctx
  obtain ⟨rd, nu, nh, rk, ru, ep⟩ := cfg
  have h1 : tr = some ⟨rd, nu, nh, rk, ru, ep⟩ := hT
  subst h1
  have h2 : rd = some rc := hR
  subst h2
  have hd : (d && env != some "true") = false := hdbg
  simp [register_traefik_route, hd, runStoreSets_none4]

/-- Characterization of `register_traefik_route` when every guard passes and
the store raises after the second write: two records persist, no key is
recorded, and the outcome is `raised`. -/
theorem register_fail2_eq (env : Option String) (host : String) (s : Store)
    (ctx : Context) (cfg : TraefikConfig) (rc : RedisConfig)
    (hdbg : (ctx.debug && env != some "true") = false)
    (hT : ctx.settings.traefik = some cfg) (hR : cfg.redis = some rc) :
    register_traefik_route env host (some 2) s ctx =
      { ctx := { ctx with traefik_redis_keys := [] },
        store := storeSet (storeSet s
          (routerRuleKey (cfg.rootkey.getD "traefik") ctx.node_name)
          (cfg.rule.getD "PathPrefix(`/`)"))
          (routerEntrypointsKey (cfg.rootkey.getD "traefik") ctx.node_name)
          (cfg.entrypoint.getD "http"),
        writes :=
          [(routerRuleKey (cfg.rootkey.getD "traefik") ctx.node_name,
            cfg.rule.getD "PathPrefix(`/`)"),
           (routerEntrypointsKey (cfg.rootkey.getD "traefik") ctx.node_name,
            cfg.entrypoint.getD "http"),
           (routerServiceKey (cfg.rootkey.getD "traefik") ctx.node_name,
            ctx.node_name)],
        opened := true, outcome := .raised } := by
  obtain ⟨d, ⟨tr, sp⟩, n, ks⟩ := ctx
  obtain ⟨rd, nu, nh, rk, ru, ep⟩ := cfg
  have h1 : tr = some ⟨rd, nu, nh, rk, ru, ep⟩ := hT
  subst h1
  have h2 : rd = some rc := hR
  subst h2
  have hd : (d && env != some "true") = false := hdbg
  simp [register_traefik_route, hd, runStoreSets_fail2]

/-- Characterization of `unregister_traefik_route` when every guard passes:
the key list is drained in reverse order and the outcome is `completed`. -/
theorem unregister_main_eq (env : Option String) (deleteOk : String → Bool)
    (s : Store) (ctx : Context) (cfg : TraefikConfig) (rc : RedisConfig)
    (hdbg : (ctx.debug && env != some "true") = false)
    (hT : ctx.settings.traefik = some cfg) (hR : cfg.redis = some rc) :
    unregister_traefik_route env deleteOk s ctx =
      { ctx := { ctx with traefik_redis_keys := [] },
        store := (drainKeys deleteOk ctx.traefik_redis_keys.reverse s).1,
        deletes := ctx.traefik_redis_keys.reverse,
        opened := true, outcome := .completed } := by
  obtain ⟨d, ⟨tr, sp⟩, n, ks⟩ := ctx
  obtain ⟨rd, nu, nh, rk, ru, ep⟩ := cfg
  have h1 : tr = some ⟨rd, nu, nh, rk, ru, ep⟩ := hT
  subst h1
  have h2 : rd = some rc := hR
  subst h2
  have hd : (d && env != some "true") = false := hdbg
  simp [unregister_traefik_route, hd, drainKeys_deletes]

/-- A `completed` register recorded exactly the keys it wrote, in write
order, and wrote four records. -/
theorem register_completed_inv (env : Option String) (host : String)
    (failAt : Option Nat) (s : Store) (ctx : Context)
    (h : (register_traefik_route env host failAt s ctx).outcome = RegOutcome.completed) :
    (register_traefik_route env host failAt s ctx).ctx.traefik_redis_keys =
      (register_traefik_route env host failAt s ctx).writes.map Prod.fst ∧
    (register_traefik_route env host failAt s ctx).writes.length = 4 := by
  obtain ⟨d, ⟨tr, sp⟩, n, ks⟩ := ctx
  cases hc : (d && env != some "true") with
  | true => simp [register_traefik_route, hc] at h
  | false =>
    cases tr with
    | none => simp [register_traefik_route, hc] at h
    | some cfg =>
      obtain ⟨rd, nu, nh, rk, ru, ep⟩ := cfg
      cases rd with
      | none => simp [register_traefik_route, hc] at h
      | some rc =>
        simp only [register_traefik_route, hc, Bool.false_eq_true, if_false] at h ⊢
        split at h
        · simp at h
        · rename_i heq
          rw [Bool.not_eq_true] at heq
          simp only [heq, Bool.false_eq_true, if_false]
          rw [runStoreSets_calls_of_not_raised _ _ 0 s heq]
          simp

/-- A `completed` unregister drained the key set. -/
theorem unregister_completed_inv (env : Option String) (deleteOk : String → Bool)
    (s : Store) (ctx : Context)
    (h : (unregister_traefik_route env deleteOk s ctx).outcome = UnregOutcome.completed) :
    (unregister_traefik_route env deleteOk s ctx).ctx.traefik_redis_keys = [] := by
  obtain ⟨d, ⟨tr, sp⟩, n, ks⟩ := ctx
  cases hc : (d && env != some "true") with
  | true => simp [unregister_traefik_route, hc] at h
  | false =>
    cases tr with
    | none => simp [unregister_traefik_route, hc] at h
    | some cfg =>
      obtain ⟨rd, nu, nh, rk, ru, ep⟩ := cfg
      cases rd with
      | none => simp [unregister_traefik_route, hc] at h
      | some rc => simp [unregister_traefik_route, hc]

/-- An unregister that returned early left the context and the store alone
and issued no delete. -/
theorem unregister_not_completed_inv (env : Option String)
    (deleteOk : String → Bool) (s : Store) (ctx : Context)
    (h : (unregister_traefik_route env deleteOk s ctx).outcome ≠ UnregOutcome.completed) :
    (unregister_traefik_route env deleteOk s ctx).ctx = ctx ∧
    (unregister_traefik_route env deleteOk s ctx).store = s ∧
    (unregister_traefik_route env deleteOk s ctx).deletes = [] := by
  obtain ⟨d, ⟨tr, sp⟩, n, ks⟩ := ctx
  cases hc : (d && env != some "true") with
  | true => simp [unregister_traefik_route, hc]
  | false =>
    cases tr with
    | none => simp [unregister_traefik_route, hc]
    | some cfg =>
      obtain ⟨rd, nu, nh, rk, ru, ep⟩ := cfg
      cases rd with
      | none => simp [unregister_traefik_route, hc]
      | some rc => simp [unregister_traefik_route, hc] at h

/-- Claim C1 is false on the code: with the store raising after the second
of the four writes (`failAt = some 2`), the two written keys are in the
store, yet the Registered Key Set is empty — not "exactly the two keys whose
writes succeeded" — and a subsequent Unregister issues no delete at all. -/
theorem C1_counterexample :
    storeHasKey (register_traefik_route none "h" (some 2) [] fixtureCtx).store
      "traefik/http/routers/pylon/rule" = true ∧
    storeHasKey (register_traefik_route none "h" (some 2) [] fixtureCtx).store
      "traefik/http/routers/pylon/entrypoints/0" = true ∧
    (register_traefik_route none "h" (some 2) [] fixtureCtx).store.length = 2 ∧
    (register_traefik_route none "h" (some 2) [] fixtureCtx).ctx.traefik_redis_keys = [] ∧
    (unregister_traefik_route none (fun _ => true)
      (register_traefik_route none "h" (some 2) [] fixtureCtx).store
      (register_traefik_route none "h" (some 2) [] fixtureCtx).ctx).deletes = [] := by
  decide

/-- Claim C1, amended: every append to the Registered Key Set happens only
after all four writes; if the store raises after the second write, the raise
propagates before any append, so the set is empty, the two written keys stay
in the store, and a subsequent Unregister pops no key, issues no delete, and
leaves the store unchanged. -/
theorem C1_partial_failure (env : Option String) (host : String) (s : Store)
    (ctx : Context) (cfg : TraefikConfig) (rc : RedisConfig)
    (deleteOk : String → Bool)
    (hdbg : (ctx.debug && env != some "true") = false)
    (hT : ctx.settings.traefik = some cfg) (hR : cfg.redis = some rc) :
    (register_traefik_route env host (some 2) s ctx).outcome = RegOutcome.raised ∧
    (register_traefik_route env host (some 2) s ctx).store =
      storeSet (storeSet s
        (routerRuleKey (cfg.rootkey.getD "traefik") ctx.node_name)
        (cfg.rule.getD "PathPrefix(`/`)"))
        (routerEntrypointsKey (cfg.rootkey.getD "traefik") ctx.node_name)
        (cfg.entrypoint.getD "http") ∧
    (register_traefik_route env host (some 2) s ctx).ctx.traefik_redis_keys = [] ∧
    (unregister_traefik_route env deleteOk
      (register_traefik_route env host (some 2) s ctx).store
      (register_traefik_route env host (some 2) s ctx).ctx).deletes = [] ∧
    (unregister_traefik_route env deleteOk
      (register_traefik_route env host (some 2) s ctx).store
      (register_traefik_route env host (some 2) s ctx).ctx).store =
      (register_traefik_route env host (some 2) s ctx).store := by
  have hreg := register_fail2_eq env host s ctx cfg rc hdbg hT hR
  have hdbg2 : (((register_traefik_route env host (some 2) s ctx).ctx).debug &&
      env != some "true") = false := by
    rw [hreg]; exact hdbg
  have hT2 : ((register_traefik_route env host (some 2) s ctx).ctx).settings.traefik =
      some cfg := by
    rw [hreg]; exact hT
  have hu := unregister_main_eq env deleteOk
    (register_traefik_route env host (some 2) s ctx).store
    (register_traefik_route env host (some 2) s ctx).ctx cfg rc hdbg2 hT2 hR
  rw [hu, hreg]
  exact ⟨rfl, rfl, rfl, rfl, rfl⟩

/-- Witness for C1_partial_failure at a concrete context. -/
theorem C1_partial_failure_witness :
    (register_traefik_route none "h" (some 2) [] fixtureCtx).outcome = RegOutcome.raised ∧
    (register_traefik_route none "h" (some 2) [] fixtureCtx).store =
      storeSet (storeSet []
        (routerRuleKey (fixtureCfg.rootkey.getD "traefik") fixtureCtx.node_name)
        (fixtureCfg.rule.getD "PathPrefix(`/`)"))
        (routerEntrypointsKey (fixtureCfg.rootkey.getD "traefik") fixtureCtx.node_name)
        (fixtureCfg.entrypoint.getD "http") ∧
    (register_traefik_route none "h" (some 2) [] fixtureCtx).ctx.traefik_redis_keys = [] ∧
    (unregister_traefik_route none (fun _ => true)
      (register_traefik_route none "h" (some 2) [] fixtureCtx).store
      (register_traefik_route none "h" (some 2) [] fixtureCtx).ctx).deletes = [] ∧
    (unregister_traefik_route none (fun _ => true)
      (register_traefik_route none "h" (some 2) [] fixtureCtx).store
      (register_traefik_route none "h" (some 2) [] fixtureCtx).ctx).store =
      (register_traefik_route none "h" (some 2) [] fixtureCtx).store :=
  C1_partial_failure none "h" [] fixtureCtx fixtureCfg fixtureRedis (fun _ => true)
    (by decide) (by decide) (by decide)

/-- Claim C2 is false on the code for the early-return half: an Unregister
that returns at the missing-config guard completes with the Registered Key
Set still non-empty. -/
theorem C2_counterexample :
    (unregister_traefik_route none (fun _ => true) []
      { debug := false, settings := { traefik := none, server_port := none },
        node_name := "pylon",
        traefik_redis_keys := ["traefik/http/routers/pylon/rule"] }).ctx.traefik_redis_keys ≠
      [] := by
  decide

/-- Claim C2, amended: after a Register whose outcome is `completed`, the
Registered Key Set holds exactly the keys written in that call, in write
order (four of them); after an Unregister that ran its main path, the set is
empty; an Unregister that returned early at a guard leaves the context — in
particular a non-empty key set — unchanged. -/
theorem C2_key_set_invariant :
    (∀ (env : Option String) (host : String) (failAt : Option Nat) (s : Store)
        (ctx : Context),
      (register_traefik_route env host failAt s ctx).outcome = RegOutcome.completed →
        (register_traefik_route env host failAt s ctx).ctx.traefik_redis_keys =
          (register_traefik_route env host failAt s ctx).writes.map Prod.fst ∧
        (register_traefik_route env host failAt s ctx).writes.length = 4) ∧
    (∀ (env : Option String) (deleteOk : String → Bool) (s : Store) (ctx : Context),
      (unregister_traefik_route env deleteOk s ctx).outcome = UnregOutcome.completed →
        (unregister_traefik_route env deleteOk s ctx).ctx.traefik_redis_keys = []) ∧
    (∀ (env : Option String) (deleteOk : String → Bool) (s : Store) (ctx : Context),
      (unregister_traefik_route env deleteOk s ctx).outcome ≠ UnregOutcome.completed →
        (unregister_traefik_route env deleteOk s ctx).ctx = ctx) :=
  ⟨fun env host failAt s ctx h => register_completed_inv env host failAt s ctx h,
   fun env deleteOk s ctx h => unregister_completed_inv env deleteOk s ctx h,
   fun env deleteOk s ctx h => (unregister_not_completed_inv env deleteOk s ctx h).1⟩

/-- Witness for C2_key_set_invariant at concrete inputs. -/
theorem C2_key_set_invariant_witness :
    ((register_traefik_route none "h" none [] fixtureCtx).ctx.traefik_redis_keys =
       (register_traefik_route none "h" none [] fixtureCtx).writes.map Prod.fst ∧
     (register_traefik_route none "h" none [] fixtureCtx).writes.length = 4) ∧
    (unregister_traefik_route none (fun _ => true) []
      (register_traefik_route none "h" none [] fixtureCtx).ctx).ctx.traefik_redis_keys =
      [] :=
  ⟨C2_key_set_invariant.1 none "h" none [] fixtureCtx (by decide),
   C2_key_set_invariant.2.1 none (fun _ => true) []
     (register_traefik_route none "h" none [] fixtureCtx).ctx (by decide)⟩

/-- Claim C3: for every configuration passing all guards (and no store
failure), Register issues exactly four writes — `{root}/http/routers/{n}/rule`,
`{root}/http/routers/{n}/entrypoints/0`, `{root}/http/routers/{n}/service`,
`{root}/http/services/{n}/loadbalancer/servers/0/url` — holding the
configured rule, entrypoint, node name and resolved URL, and no others. -/
theorem C3_write_layout (env : Option String) (host : String) (s : Store)
    (ctx : Context) (cfg : TraefikConfig) (rc : RedisConfig)
    (hdbg : (ctx.debug && env != some "true") = false)
    (hT : ctx.settings.traefik = some cfg) (hR : cfg.redis = some rc) :
    (register_traefik_route env host none s ctx).writes =
      [(cfg.rootkey.getD "traefik" ++ "/http/routers/" ++ ctx.node_name ++ "/rule",
        cfg.rule.getD "PathPrefix(`/`)"),
       (cfg.rootkey.getD "traefik" ++ "/http/routers/" ++ ctx.node_name ++
          "/entrypoints/0",
        cfg.entrypoint.getD "http"),
       (cfg.rootkey.getD "traefik" ++ "/http/routers/" ++ ctx.node_name ++ "/service",
        ctx.node_name),
       (cfg.rootkey.getD "traefik" ++ "/http/services/" ++ ctx.node_name ++
          "/loadbalancer/servers/0/url",
        resolve_node_url cfg host (ctx.settings.server_port.getD SERVER_DEFAULT_PORT))] := by
  rw [register_completed_eq env host s ctx cfg rc hdbg hT hR]
  rfl

/-- Witness for C3_write_layout at a concrete context. -/
theorem C3_write_layout_witness :
    (register_traefik_route none "h" none [] fixtureCtx).writes =
      [(fixtureCfg.rootkey.getD "traefik" ++ "/http/routers/" ++
          fixtureCtx.node_name ++ "/rule",
        fixtureCfg.rule.getD "PathPrefix(`/`)"),
       (fixtureCfg.rootkey.getD "traefik" ++ "/http/routers/" ++
          fixtureCtx.node_name ++ "/entrypoints/0",
        fixtureCfg.entrypoint.getD "http"),
       (fixtureCfg.rootkey.getD "traefik" ++ "/http/routers/" ++
          fixtureCtx.node_name ++ "/service",
        fixtureCtx.node_name),
       (fixtureCfg.rootkey.getD "traefik" ++ "/http/services/" ++
          fixtureCtx.node_name ++ "/loadbalancer/servers/0/url",
        resolve_node_url fixtureCfg "h"
          (fixtureCtx.settings.server_port.getD SERVER_DEFAULT_PORT))] :=
  C3_write_layout none "h" [] fixtureCtx fixtureCfg fixtureRedis
    (by decide) (by decide) (by decide)

/-- Claim C4: the last written value is the resolved URL, and URL resolution
has the precedence: explicit `node_url` verbatim, else
`http://{node_hostname}:{port}`, else `http://{local_hostname}:{port}`, with
`port` the configured server port or the default. -/
theorem C4_url_precedence (env : Option String) (host : String) (s : Store)
    (ctx : Context) (cfg : TraefikConfig) (rc : RedisConfig)
    (hdbg : (ctx.debug && env != some "true") = false)
    (hT : ctx.settings.traefik = some cfg) (hR : cfg.redis = some rc) :
    ((register_traefik_route env host none s ctx).writes.map Prod.snd).getLast? =
      some (resolve_node_url cfg host
        (ctx.settings.server_port.getD SERVER_DEFAULT_PORT)) ∧
    (∀ u, cfg.node_url = some u →
      resolve_node_url cfg host (ctx.settings.server_port.getD SERVER_DEFAULT_PORT) = u) ∧
    (∀ hn, cfg.node_url = none → cfg.node_hostname = some hn →
      resolve_node_url cfg host (ctx.settings.server_port.getD SERVER_DEFAULT_PORT) =
        "http://" ++ hn ++ ":" ++
          toString (ctx.settings.server_port.getD SERVER_DEFAULT_PORT)) ∧
    (cfg.node_url = none → cfg.node_hostname = none →
      resolve_node_url cfg host (ctx.settings.server_port.getD SERVER_DEFAULT_PORT) =
        "http://" ++ host ++ ":" ++
          toString (ctx.settings.server_port.getD SERVER_DEFAULT_PORT)) := by
  refine ⟨?_, ?_, ?_, ?_⟩
  · rw [register_completed_eq env host s ctx cfg rc hdbg hT hR]
    rfl
  · intro u hu
    simp [resolve_node_url, hu]
  · intro hn h1 h2
    simp [resolve_node_url, h1, h2]
  · intro h1 h2
    simp [resolve_node_url, h1, h2]

/-- Witness for C4_url_precedence at a concrete context (neither `node_url`
nor `node_hostname` set, so the local hostname branch applies). -/
theorem C4_url_precedence_witness :
    ((register_traefik_route none "h" none [] fixtureCtx).writes.map Prod.snd).getLast? =
      some (resolve_node_url fixtureCfg "h"
        (fixtureCtx.settings.server_port.getD SERVER_DEFAULT_PORT)) ∧
    resolve_node_url fixtureCfg "h"
        (fixtureCtx.settings.server_port.getD SERVER_DEFAULT_PORT) =
      "http://" ++ "h" ++ ":" ++
        toString (fixtureCtx.settings.server_port.getD SERVER_DEFAULT_PORT) :=
  ⟨(C4_url_precedence none "h" [] fixtureCtx fixtureCfg fixtureRedis
      (by decide) (by decide) (by decide)).1,
   (C4_url_precedence none "h" [] fixtureCtx fixtureCfg fixtureRedis
      (by decide) (by decide) (by decide)).2.2.2 (by decide) (by decide)⟩

/-- Claim C5: after a fault-free Register, a subsequent Unregister deletes
exactly the keys Register wrote, in the reverse of write order, and none of
those keys is present in the store afterwards. -/
theorem C5_symmetry (env : Option String) (host : String) (s : Store)
    (ctx : Context) (cfg : TraefikConfig) (rc : RedisConfig)
    (hdbg : (ctx.debug && env != some "true") = false)
    (hT : ctx.settings.traefik = some cfg) (hR : cfg.redis = some rc) :
    (unregister_traefik_route env (fun _ => true)
      (register_traefik_route env host none s ctx).store
      (register_traefik_route env host none s ctx).ctx).deletes =
      ((register_traefik_route env host none s ctx).writes.map Prod.fst).reverse ∧
    ∀ k ∈ (register_traefik_route env host none s ctx).writes.map Prod.fst,
      storeHasKey (unregister_traefik_route env (fun _ => true)
        (register_traefik_route env host none s ctx).store
        (register_traefik_route env host none s ctx).ctx).store k = false := by
  have hreg := register_completed_eq env host s ctx cfg rc hdbg hT hR
  have hdbg2 : (((register_traefik_route env host none s ctx).ctx).debug &&
      env != some "true") = false := by
    rw [hreg]; exact hdbg
  have hT2 : ((register_traefik_route env host none s ctx).ctx).settings.traefik =
      some cfg := by
    rw [hreg]; exact hT
  have hu := unregister_main_eq env (fun _ => true)
    (register_traefik_route env host none s ctx).store
    (register_traefik_route env host none s ctx).ctx cfg rc hdbg2 hT2 hR
  rw [hu, hreg]
  constructor
  · rfl
  · intro k hk
    show storeHasKey (drainKeys (fun _ => true) _ _).1 k = false
    rw [drainKeys_allOk_store]
    apply storeHasKey_foldl_delete_of_mem
    simp only [List.map_cons, List.map_nil, List.mem_cons, List.mem_reverse] at hk ⊢
    tauto

/-- Witness for C5_symmetry at a concrete context. -/
theorem C5_symmetry_witness :
    (unregister_traefik_route none (fun _ => true)
      (register_traefik_route none "h" none [] fixtureCtx).store
      (register_traefik_route none "h" none [] fixtureCtx).ctx).deletes =
      ((register_traefik_route none "h" none [] fixtureCtx).writes.map Prod.fst).reverse ∧
    storeHasKey (unregister_traefik_route none (fun _ => true)
      (register_traefik_route none "h" none [] fixtureCtx).store
      (register_traefik_route none "h" none [] fixtureCtx).ctx).store
      "traefik/http/routers/pylon/rule" = false :=
  ⟨(C5_symmetry none "h" [] fixtureCtx fixtureCfg fixtureRedis
      (by decide) (by decide) (by decide)).1,
   (C5_symmetry none "h" [] fixtureCtx fixtureCfg fixtureRedis
      (by decide) (by decide) (by decide)).2
     "traefik/http/routers/pylon/rule" (by decide)⟩

/-- Claim C6: on Unregister's main path, for every initial key set and every
pattern of per-key delete outcomes, the in-memory key set is drained to
empty, and every key is passed to `store.delete` exactly once, in the
reverse of list order — a failed delete is not retried and does not block
the rest of the drain. -/
theorem C6_drain_regardless (env : Option String) (deleteOk : String → Bool)
    (s : Store) (ctx : Context) (cfg : TraefikConfig) (rc : RedisConfig)
    (hdbg : (ctx.debug && env != some "true") = false)
    (hT : ctx.settings.traefik = some cfg) (hR : cfg.redis = some rc) :
    (unregister_traefik_route env deleteOk s ctx).outcome = UnregOutcome.completed ∧
    (unregister_traefik_route env deleteOk s ctx).ctx.traefik_redis_keys = [] ∧
    (unregister_traefik_route env deleteOk s ctx).deletes =
      ctx.traefik_redis_keys.reverse := by
  rw [unregister_main_eq env deleteOk s ctx cfg rc hdbg hT hR]
  exact ⟨rfl, rfl, rfl⟩

/-- Witness for C6_drain_regardless: every delete fails, the set is still
drained and each key attempted once. -/
theorem C6_drain_regardless_witness :
    (unregister_traefik_route none (fun _ => false) []
      { debug := false,
        settings := { traefik := some fixtureCfg, server_port := some 1080 },
        node_name := "pylon",
        traefik_redis_keys := ["a", "b", "c"] }).outcome = UnregOutcome.completed ∧
    (unregister_traefik_route none (fun _ => false) []
      { debug := false,
        settings := { traefik := some fixtureCfg, server_port := some 1080 },
        node_name := "pylon",
        traefik_redis_keys := ["a", "b", "c"] }).ctx.traefik_redis_keys = [] ∧
    (unregister_traefik_route none (fun _ => false) []
      { debug := false,
        settings := { traefik := some fixtureCfg, server_port := some 1080 },
        node_name := "pylon",
        traefik_redis_keys := ["a", "b", "c"] }).deletes =
      ["a", "b", "c"].reverse :=
  C6_drain_regardless none (fun _ => false) []
    { debug := false,
      settings := { traefik := some fixtureCfg, server_port := some 1080 },
      node_name := "pylon",
      traefik_redis_keys := ["a", "b", "c"] } fixtureCfg fixtureRedis
    (by decide) (by decide) (by decide)

/-- Claim C7: when the traefik section or its redis entry is missing,
Unregister returns without opening a connection or issuing any delete, and
the context — in particular the Registered Key Set — is left exactly as it
was. -/
theorem C7_missing_config_noop (env : Option String) (deleteOk : String → Bool)
    (s : Store) (ctx : Context)
    (h : ctx.settings.traefik = none ∨
         ∃ cfg, ctx.settings.traefik = some cfg ∧ cfg.redis = none) :
    (unregister_traefik_route env deleteOk s ctx).ctx = ctx ∧
    (unregister_traefik_route env deleteOk s ctx).store = s ∧
    (unregister_traefik_route env deleteOk s ctx).deletes = [] ∧
    (unregister_traefik_route env deleteOk s ctx).opened = false := by
  obtain ⟨d, ⟨tr, sp⟩, n, ks⟩ := ctx
  cases hc : (d && env != some "true") with
  | true => simp [unregister_traefik_route, hc]
  | false =>
    rcases h with h | ⟨cfg, h1, h2⟩
    · have h' : tr = none := h
      subst h'
      simp [unregister_traefik_route, hc]
    · have h' : tr = some cfg := h1
      subst h'
      obtain ⟨rd, nu, nh, rk, ru, ep⟩ := cfg
      have h'' : rd = none := h2
      subst h''
      simp [unregister_traefik_route, hc]

/-- Witness for C7_missing_config_noop: a non-empty key set survives an
Unregister with no traefik section. -/
theorem C7_missing_config_noop_witness :
    (unregister_traefik_route none (fun _ => true) []
      { debug := false, settings := { traefik := none, server_port := none },
        node_name := "pylon", traefik_redis_keys := ["a", "b"] }).ctx =
      { debug := false, settings := { traefik := none, server_port := none },
        node_name := "pylon", traefik_redis_keys := ["a", "b"] } ∧
    (unregister_traefik_route none (fun _ => true) []
      { debug := false, settings := { traefik := none, server_port := none },
        node_name := "pylon", traefik_redis_keys := ["a", "b"] }).store = [] ∧
    (unregister_traefik_route none (fun _ => true) []
      { debug := false, settings := { traefik := none, server_port := none },
        node_name := "pylon", traefik_redis_keys := ["a", "b"] }).deletes = [] ∧
    (unregister_traefik_route none (fun _ => true) []
      { debug := false, settings := { traefik := none, server_port := none },
        node_name := "pylon", traefik_redis_keys := ["a", "b"] }).opened = false :=
  C7_missing_config_noop none (fun _ => true) []
    { debug := false, settings := { traefik := none, server_port := none },
      node_name := "pylon", traefik_redis_keys := ["a", "b"] }
    (Or.inl (by decide))

/-- Claim C8: with the debug flag set and the WERKZEUG_RUN_MAIN marker not
equal to "true", both Register and Unregister return at the first guard: no
connection is opened, no write or delete is issued, and the store is
untouched. -/
theorem C8_dev_mode_no_io (env : Option String) (host : String)
    (failAt : Option Nat) (deleteOk : String → Bool) (s : Store) (ctx : Context)
    (hd : ctx.debug = true) (he : env ≠ some "true") :
    (register_traefik_route env host failAt s ctx).opened = false ∧
    (register_traefik_route env host failAt s ctx).writes = [] ∧
    (register_traefik_route env host failAt s ctx).store = s ∧
    (register_traefik_route env host failAt s ctx).outcome = RegOutcome.skippedDebug ∧
    (unregister_traefik_route env deleteOk s ctx).opened = false ∧
    (unregister_traefik_route env deleteOk s ctx).deletes = [] ∧
    (unregister_traefik_route env deleteOk s ctx).store = s ∧
    (unregister_traefik_route env deleteOk s ctx).outcome = UnregOutcome.skippedDebug := by
  obtain ⟨d, ⟨tr, sp⟩, n, ks⟩ := ctx
  have hd' : d = true := hd
  subst hd'
  have hc : (true && env != some "true") = true := by
    simpa [bne_iff_ne] using he
  simp [register_traefik_route, unregister_traefik_route, hc]

/-- Witness for C8_dev_mode_no_io at a concrete debug-mode context. -/
theorem C8_dev_mode_no_io_witness :
    (register_traefik_route none "h" none []
      { debug := true, settings := { traefik := some fixtureCfg, server_port := some 1080 },
        node_name := "pylon", traefik_redis_keys := [] }).opened = false ∧
    (register_traefik_route none "h" none []
      { debug := true, settings := { traefik := some fixtureCfg, server_port := some 1080 },
        node_name := "pylon", traefik_redis_keys := [] }).writes = [] ∧
    (register_traefik_route none "h" none []
      { debug := true, settings := { traefik := some fixtureCfg, server_port := some 1080 },
        node_name := "pylon", traefik_redis_keys := [] }).store = [] ∧
    (register_traefik_route none "h" none []
      { debug := true, settings := { traefik := some fixtureCfg, server_port := some 1080 },
        node_name := "pylon", traefik_redis_keys := [] }).outcome =
      RegOutcome.skippedDebug ∧
    (unregister_traefik_route none (fun _ => true) []
      { debug := true, settings := { traefik := some fixtureCfg, server_port := some 1080 },
        node_name := "pylon", traefik_redis_keys := [] }).opened = false ∧
    (unregister_traefik_route none (fun _ => true) []
      { debug := true, settings := { traefik := some fixtureCfg, server_port := some 1080 },
        node_name := "pylon", traefik_redis_keys := [] }).deletes = [] ∧
    (unregister_traefik_route none (fun _ => true) []
      { debug := true, settings := { traefik := some fixtureCfg, server_port := some 1080 },
        node_name := "pylon", traefik_redis_keys := [] }).store = [] ∧
    (unregister_traefik_route none (fun _ => true) []
      { debug := true, settings := { traefik := some fixtureCfg, server_port := some 1080 },
        node_name := "pylon", traefik_redis_keys := [] }).outcome =
      UnregOutcome.skippedDebug :=
  C8_dev_mode_no_io none "h" none (fun _ => true) []
    { debug := true, settings := { traefik := some fixtureCfg, server_port := some 1080 },
      node_name := "pylon", traefik_redis_keys := [] }
    (by decide) (by decide)

/-- Claim C9: Register resets the Registered Key Set before evaluating any
guard, so after a Register skipped by the debug guard, the missing-traefik
guard, or the missing-redis guard, the set is empty — even when a previous
call had populated it. -/
theorem C9_reset_on_skip (env : Option String) (host : String)
    (failAt : Option Nat) (s : Store) (ctx : Context)
    (h : (ctx.debug && env != some "true") = true ∨
         ctx.settings.traefik = none ∨
         ∃ cfg, ctx.settings.traefik = some cfg ∧ cfg.redis = none) :
    (register_traefik_route env host failAt s ctx).ctx.traefik_redis_keys = [] ∧
    (register_traefik_route env host failAt s ctx).outcome ≠ RegOutcome.completed := by
  obtain ⟨d, ⟨tr, sp⟩, n, ks⟩ := ctx
  rcases h with h | h | ⟨cfg, h1, h2⟩
  · have hc : (d && env != some "true") = true := h
    simp [register_traefik_route, hc]
  · cases hc : (d && env != some "true") with
    | true => simp [register_traefik_route, hc]
    | false =>
      have h' : tr = none := h
      subst h'
      simp [register_traefik_route, hc]
  · cases hc : (d && env != some "true") with
    | true => simp [register_traefik_route, hc]
    | false =>
      have h' : tr = some cfg := h1
      subst h'
      obtain ⟨rd, nu, nh, rk, ru, ep⟩ := cfg
      have h'' : rd = none := h2
      subst h''
      simp [register_traefik_route, hc]

/-- Witness for C9_reset_on_skip: a stale key set is wiped by a Register that
is skipped for lack of a traefik section. -/
theorem C9_reset_on_skip_witness :
    (register_traefik_route none "h" none []
      { debug := false, settings := { traefik := none, server_port := none },
        node_name := "pylon",
        traefik_redis_keys := ["stale-key"] }).ctx.traefik_redis_keys = [] ∧
    (register_traefik_route none "h" none []
      { debug := false, settings := { traefik := none, server_port := none },
        node_name := "pylon",
        traefik_redis_keys := ["stale-key"] }).outcome ≠ RegOutcome.completed :=
  C9_reset_on_skip none "h" none []
    { debug := false, settings := { traefik := none, server_port := none },
      node_name := "pylon", traefik_redis_keys := ["stale-key"] }
    (Or.inr (Or.inl (by decide)))

/-- Claim C10: a traefik section lacking `rootkey`, `rule` or `entrypoint`
does not make Register fail: it completes, substituting the defaults
"traefik", "PathPrefix(`/`)" and "http" in the four written records. -/
theorem C10_defaults (env : Option String) (host : String) (s : Store)
    (ctx : Context) (cfg : TraefikConfig) (rc : RedisConfig)
    (hdbg : (ctx.debug && env != some "true") = false)
    (hT : ctx.settings.traefik = some cfg) (hR : cfg.redis = some rc)
    (hk : cfg.rootkey = none) (hru : cfg.rule = none) (hep : cfg.entrypoint = none) :
    (register_traefik_route env host none s ctx).outcome = RegOutcome.completed ∧
    (register_traefik_route env host none s ctx).writes =
      [("traefik" ++ "/http/routers/" ++ ctx.node_name ++ "/rule", "PathPrefix(`/`)"),
       ("traefik" ++ "/http/routers/" ++ ctx.node_name ++ "/entrypoints/0", "http"),
       ("traefik" ++ "/http/routers/" ++ ctx.node_name ++ "/service", ctx.node_name),
       ("traefik" ++ "/http/services/" ++ ctx.node_name ++ "/loadbalancer/servers/0/url",
        resolve_node_url cfg host (ctx.settings.server_port.getD SERVER_DEFAULT_PORT))] := by
  rw [register_completed_eq env host s ctx cfg rc hdbg hT hR]
  refine ⟨rfl, ?_⟩
  simp [routerRuleKey, routerEntrypointsKey, routerServiceKey, serviceUrlKey,
    hk, hru, hep]

/-- Witness for C10_defaults at a concrete context whose traefik section has
no `rootkey`, `rule` or `entrypoint`. -/
theorem C10_defaults_witness :
    (register_traefik_route none "h" none [] fixtureCtx).outcome =
      RegOutcome.completed ∧
    (register_traefik_route none "h" none [] fixtureCtx).writes =
      [("traefik" ++ "/http/routers/" ++ fixtureCtx.node_name ++ "/rule",
        "PathPrefix(`/`)"),
       ("traefik" ++ "/http/routers/" ++ fixtureCtx.node_name ++ "/entrypoints/0",
        "http"),
       ("traefik" ++ "/http/routers/" ++ fixtureCtx.node_name ++ "/service",
        fixtureCtx.node_name),
       ("traefik" ++ "/http/services/" ++ fixtureCtx.node_name ++
          "/loadbalancer/servers/0/url",
        resolve_node_url fixtureCfg "h"
          (fixtureCtx.settings.server_port.getD SERVER_DEFAULT_PORT))] :=
  C10_defaults none "h" [] fixtureCtx fixtureCfg fixtureRedis
    (by decide) (by decide) (by decide) (by decide) (by decide) (by decide)
